import Mathlib

/-!
Verification development for the TripoSR Colab notebook
(`TripoSR_3dify.ipynb`).  The notebook wires together a background-removal
step, a pretrained single-image-to-3D model, a render/video step and a mesh
export step, plus a small `Timer` utility.  Below we shallowly embed the
notebook's own code — the `Timer` class, the configuration cell, the upload
cell, the preprocessing cell and the pipeline loop — as pure Lean functions.
External collaborators (PIL, rembg, the TSR model) are modelled as function
parameters or as events recorded in an explicit trace, following the
interface contracts the notebook relies on.  Numeric computations that the
notebook performs on float32 arrays are embedded over `ℚ`.
-/

namespace TripoSR

/-- Color modes relevant to the notebook: the preprocessing cell branches
on `image.mode == "RGBA"`; everything else it treats uniformly. -/
inductive Mode where
  | RGB
  | RGBA
deriving DecidableEq, Repr

/-- Number of channels of a pixel in each mode. -/
def Mode.channels : Mode → Nat
  | Mode.RGB => 3
  | Mode.RGBA => 4

/-- An in-memory bitmap, as PIL exposes it to the notebook: a mode, a size,
and a row-major grid of pixels, each pixel a list of 8-bit channel values. -/
structure Image where
  mode : Mode
  height : Nat
  width : Nat
  pixels : List (List (List Nat))
deriving DecidableEq, Repr

/-- An image is well formed when its pixel grid matches its size and every
pixel has the channel count of its mode. -/
def Image.WellFormed (img : Image) : Prop :=
  img.pixels.length = img.height ∧
  (∀ row ∈ img.pixels, row.length = img.width ∧
    ∀ px ∈ row, px.length = img.mode.channels)

/-! ## Timer

The notebook's `Timer` class:

```python
class Timer:
  def __init__(self):
    self.items = {}
    self.time_scale = 1000.0
    self.time_unit = "ms"

  def start(self, name: str) -> None:
    if torch.cuda.is_available():
      torch.cuda.synchronize()
    self.items[name] = time.time()

  def end(self, name: str) -> float:
    if name not in self.items:
      return
    if torch.cuda.is_available():
      torch.cuda.synchronize
    start_time = self.items.pop(name)
    delta = time.time() - start_time
    t = delta * self.time_scale
    print(f"{name} finished in {t:.2f}{self.time_unit}.")
```

We embed `self.items` as an association list with unique keys (a Python
dict), wall-clock readings `time.time()` as a `ℚ` parameter `now`, CUDA
availability as a `Bool` parameter, and the observable side effects
(synchronization barriers actually performed, text printed) as an explicit
trace of `TimerEffect`s.  Note that in `end` the source writes
`torch.cuda.synchronize` WITHOUT call parentheses: in Python this statement
merely evaluates the attribute and discards it, so no synchronization
barrier runs there; the embedding of `timerEnd` therefore records no
`cudaSync` effect. -/

/-- Observable side effects of `Timer` methods. -/
inductive TimerEffect where
  | cudaSync
  | printed (s : String)
deriving DecidableEq, Repr

/-- The `self.items` dict: name ↦ recorded start time. -/
abbrev TimerItems := List (String × ℚ)

/-- Dict membership/lookup (`name in self.items`, `self.items[name]`). -/
def itemsLookup : TimerItems → String → Option ℚ
  | [], _ => none
  | (k, v) :: rest, name => if k = name then some v else itemsLookup rest name

/-- Dict assignment `self.items[name] = v`: overwrite in place if the key
exists, otherwise append. -/
def itemsInsert : TimerItems → String → ℚ → TimerItems
  | [], name, v => [(name, v)]
  | (k, w) :: rest, name, v =>
      if k = name then (k, v) :: rest else (k, w) :: itemsInsert rest name v

/-- Dict removal `self.items.pop(name)` (the mapping for `name` is gone). -/
def itemsErase : TimerItems → String → TimerItems
  | [], _ => []
  | (k, v) :: rest, name =>
      if k = name then itemsErase rest name else (k, v) :: itemsErase rest name

/-- Timer state as built by `Timer.__init__`. -/
structure Timer where
  items : TimerItems
  time_scale : ℚ
  time_unit : String
deriving DecidableEq, Repr

/-- `Timer()` — the constructor's field values. -/
def Timer.init : Timer :=
  { items := [], time_scale := 1000, time_unit := "ms" }

/-- Render a rational with two decimal digits, the embedding of the format
specifier `:.2f` applied to `t` (rounding of the binary float is modelled
by rounding to the nearest hundredth). -/
def fmt2 (q : ℚ) : String :=
  let n : ℤ := round (q * 100)
  let sign := if n < 0 then "-" else ""
  let m := n.natAbs
  let frac := m % 100
  sign ++ toString (m / 100) ++ "." ++
    (if frac < 10 then "0" else "") ++ toString frac

/-- `Timer.start(name)`: synchronize if CUDA is available, then record the
current time against `name`.  Returns the new state and the effect trace. -/
def Timer.start (tm : Timer) (cudaAvailable : Bool) (name : String)
    (now : ℚ) : Timer × List TimerEffect :=
  ({ tm with items := itemsInsert tm.items name now },
   if cudaAvailable then [TimerEffect.cudaSync] else [])

/-- Result of a call to `Timer.end`: the new state, the effect trace, and
the returned value (`none` models Python's `None`). -/
structure TimerEndResult where
  timer : Timer
  effects : List TimerEffect
  ret : Option ℚ
deriving DecidableEq, Repr

/-- `Timer.end(name)`.  If `name` is not an active interval the method
returns immediately (bare `return`, i.e. `None`, no print, state
untouched).  Otherwise: the source's `torch.cuda.synchronize` statement
lacks call parentheses, so no barrier effect is recorded; the start time is
popped, the elapsed time is scaled by `time_scale` and printed with the
`\x7bt:.2f\x7d` format; the method falls off its end, returning `None`. -/
def timerEnd (tm : Timer) (cudaAvailable : Bool) (name : String)
    (now : ℚ) : TimerEndResult :=
  match itemsLookup tm.items name with
  | none => { timer := tm, effects := [], ret := none }
  | some start_time =>
      let delta := now - start_time
      let t := delta * tm.time_scale
      { timer := { tm with items := itemsErase tm.items name },
        effects := [TimerEffect.printed
          (name ++ " finished in " ++ fmt2 t ++ tm.time_unit ++ ".")],
        ret := none }

/-! ## Configuration cell

```python
image_paths = "/content/TripoSR/examples/product.png"
device = "cuda:0"
pretrained_model_name_or_path = "stabilityai/TripoSR"
chunk_size = 8192
no_remove_bg = True
foreground_ratio = 0.85
output_dir = "output/"
model_save_format = "obj"
render = True
output_dir = output_dir.strip()
```
-/

/-- The notebook's inference configuration variables. -/
structure InferenceConfig where
  image_paths : String
  device : String
  pretrained_model_name_or_path : String
  chunk_size : Nat
  no_remove_bg : Bool
  foreground_ratio : ℚ
  output_dir : String
  model_save_format : String
  render : Bool
deriving DecidableEq, Repr

/-- The concrete values assigned in the configuration cell
(`output_dir.strip()` leaves `"output/"` unchanged). -/
def notebookConfig : InferenceConfig :=
  { image_paths := "/content/TripoSR/examples/product.png"
    device := "cuda:0"
    pretrained_model_name_or_path := "stabilityai/TripoSR"
    chunk_size := 8192
    no_remove_bg := true
    foreground_ratio := 85 / 100
    output_dir := "output/"
    model_save_format := "obj"
    render := true }

/-- `os.path.join(a, b)` for the paths the notebook builds: `b` is always a
relative component, so the join inserts a separator unless `a` already ends
with one (or is empty). -/
def pathJoin (a b : String) : String :=
  if a = "" then b
  else if a.data.getLast? = some '/' then a ++ b
  else a ++ "/" ++ b

/-! ## Upload cell

```python
uploaded = files.upload()
original_image = Image.open(list(uploaded.keys())[0])
original_image.resize((512, 512)).save("examples/product.png")
```

`Image.resize` is PIL's (an external collaborator): it returns a NEW image
of exactly the requested size and does not mutate its receiver.  We model
it by its size contract, sampling pixels from the source grid (the precise
resampling filter is irrelevant to every claim, which depend only on the
mode and dimensions of the result). -/

/-- PIL `img.resize((w, h))`, modelled by its contract: a fresh image of
size `w × h` in the same mode, pixels sampled from the source. -/
def resizeImage (img : Image) (w h : Nat) : Image :=
  { mode := img.mode
    height := h
    width := w
    pixels := (List.range h).map (fun y =>
      (List.range w).map (fun x =>
        (((img.pixels.getD (y * img.height / h) []).getD
          (x * img.width / w) []) : List Nat))) }

/-- The upload cell: binds `original_image` to the uploaded bitmap and
saves a 512×512 resized COPY to `examples/product.png`.  Returns the value
of the variable `original_image` together with the (path, image) pair
written to disk.  Note that `resize` does not modify `original_image`. -/
def uploadCell (uploaded : Image) : Image × (String × Image) :=
  (uploaded, ("examples/product.png", resizeImage uploaded 512 512))

/-! ## Preprocessing cell

```python
images = []
rembg_session = rembg.new_session()
image_with_bg_removed = remove_background(original_image, rembg_session)
image = resize_foreground(image_with_bg_removed, foreground_ratio)
if image.mode == "RGBA":
    image = np.array(image).astype(np.float32) / 255.0
    image = image[:, :, :3] * image[:, :, 3:4] + (1 - image[:, :, 3:4]) * 0.5
    image = Image.fromarray((image * 255.0).astype(np.uint8))
image_dir = os.path.join(output_dir, str(0))
os.makedirs(image_dir, exist_ok=True)
image.save(os.path.join(image_dir, "input.png"))
images.append(image)
```

`remove_background` (tsr.utils + rembg) and `resize_foreground` (tsr.utils)
are external collaborators; we pass them in as function parameters and
record in the trace that they were invoked and on which image.  The cell
reads `no_remove_bg` nowhere: the `remove_background` call is
unconditional. -/

/-- Casting a `ℚ` in `[0, 255]` to `np.uint8`: truncation toward zero. -/
def toUint8 (q : ℚ) : Nat := (Int.floor q).toNat

/-- The RGBA compositing arithmetic of the preprocessing cell on one pixel
`[r, g, b, a]`: normalize by 255, blend the first three channels with the
constant 0.5 weighted by the normalized alpha, scale back by 255 and cast
to `uint8`.  Pixels that are not 4-channel are outside the `H×W×4` array
shape the branch assumes and are passed through. -/
def compositePixel (px : List Nat) : List Nat :=
  match px with
  | [r, g, b, a] =>
      let af : ℚ := (a : ℚ) / 255
      [toUint8 (((r : ℚ) / 255 * af + (1 - af) * (1 / 2)) * 255),
       toUint8 (((g : ℚ) / 255 * af + (1 - af) * (1 / 2)) * 255),
       toUint8 (((b : ℚ) / 255 * af + (1 - af) * (1 / 2)) * 255)]
  | other => other

/-- The whole RGBA branch: blend every pixel and rebuild a PIL image from
the resulting `H×W×3` uint8 array (`Image.fromarray` of a 3-channel array
yields mode RGB; width and height are unchanged). -/
def compositeRGBA (img : Image) : Image :=
  { mode := Mode.RGB
    height := img.height
    width := img.width
    pixels := img.pixels.map (fun row => row.map compositePixel) }

/-- Spec-side blend formula, stated exactly as the specification's words:
`out = rgb*alpha + gray*(1-alpha)` with `gray = 0.5`, on normalized
channel values.  Used only to compare against the code's arithmetic. -/
def specBlend (rgb alpha : ℚ) : ℚ := rgb * alpha + (1 / 2) * (1 - alpha)

/-- Observable events of the preprocessing cell. -/
inductive PreprocEvent where
  | calledRemoveBackground (input : Image)
  | calledResizeForeground (input : Image) (ratio : ℚ)
  | savedFile (path : String)
deriving DecidableEq, Repr

/-- The preprocessing cell.  Parameters `removeBg` and `resizeFg` are the
external `remove_background` and `resize_foreground` capabilities.  Returns
the `images` list handed to the pipeline loop and the event trace.  The
configuration's `no_remove_bg` flag is never consulted by this cell. -/
def preprocessCell (cfg : InferenceConfig) (removeBg : Image → Image)
    (resizeFg : Image → ℚ → Image) (original_image : Image) :
    List Image × List PreprocEvent :=
  let images : List Image := []
  let image_with_bg_removed := removeBg original_image
  let image0 := resizeFg image_with_bg_removed cfg.foreground_ratio
  let image1 := if image0.mode = Mode.RGBA then compositeRGBA image0 else image0
  let image_dir := pathJoin cfg.output_dir (toString 0)
  (images ++ [image1],
   [PreprocEvent.calledRemoveBackground original_image,
    PreprocEvent.calledResizeForeground image_with_bg_removed
      cfg.foreground_ratio,
    PreprocEvent.savedFile (pathJoin image_dir "input.png")])

/-! ## Pipeline loop

```python
for i, image in enumerate(images):
    print(f"Running image {i + 1}/{len(images)} ...")
    timer.start("Running model")
    with torch.no_grad():
        scene_codes = model([image], device=device)
    timer.end("Running model")
    if render:
        timer.start("Rendering")
        render_images = model.render(scene_codes, n_views=30, return_type="pil")
        for ri, render_image in enumerate(render_images[0]):
            render_image.save(os.path.join(output_dir, str(i), f"render_{ri:03d}.png"))
        save_video(
            render_images[0], os.path.join(output_dir, str(i), "render.mp4"), fps=30
        )
        timer.end("Rendering")
    timer.start("Exporting mesh")
    meshes = model.extract_mesh(scene_codes, has_vertex_color=False)
    mesh_file = os.path.join(output_dir, str(i), f"mesh.{model_save_format}")
    meshes[0].export(mesh_file)
    timer.end("Exporting mesh")
```

`model`, `model.render`, `model.extract_mesh` and `save_video` are external
collaborators: scene codes, render frames and meshes are opaque to the
pipeline, so we represent them by opaque wrapper types and pass the model's
operations in as function parameters.  Every externally visible action of
the loop body is recorded as a `PipeEvent`. -/

/-- An opaque scene code produced by the model. -/
structure Scene where
  id : Nat
deriving DecidableEq, Repr

/-- An opaque rendered frame. -/
structure Frame where
  id : Nat
deriving DecidableEq, Repr

/-- An opaque mesh object returned by `model.extract_mesh`. -/
structure Mesh where
  id : Nat
deriving DecidableEq, Repr

/-- Observable events of one pipeline-loop iteration, in program order. -/
inductive PipeEvent where
  | printedLine (s : String)
  | startedTimer (name : String)
  | endedTimer (name : String)
  | inferCall (inputs : List Image)
  | renderCall (scenes : List Scene) (nViews : Nat) (returnType : String)
  | savedFrame (path : String) (frame : Frame)
  | savedVideo (path : String) (fps : Nat) (frames : List Frame)
  | extractCall (scenes : List Scene) (hasVertexColor : Bool)
  | exportedMesh (path : String) (mesh : Mesh)
deriving DecidableEq, Repr

/-- The format specifier `ri:03d`: decimal, zero-padded to width 3. -/
def fmt3 (n : Nat) : String :=
  let s := toString n
  (List.replicate (3 - s.length) '0').asString ++ s

/-- One iteration of the pipeline loop at index `i` on `image`, with
`total = len(images)`.  `modelFn` is the model's inference call (one scene
code per input image, per the model boundary contract), `renderFn` its
render call (one frame list per scene code) and `extractFn` its mesh
extraction (one mesh per scene code).  `render_images[0]` and `meshes[0]`
are the Python subscripts; they are embedded with `List.getD`, and the
theorems that need them supply the nonemptiness the external contract
guarantees. -/
def pipelineIter (cfg : InferenceConfig)
    (modelFn : List Image → List Scene)
    (renderFn : List Scene → Nat → String → List (List Frame))
    (extractFn : List Scene → Bool → List Mesh)
    (total : Nat) (i : Nat) (image : Image) : List PipeEvent :=
  let scene_codes := modelFn [image]
  let meshes := extractFn scene_codes false
  let mesh_file := pathJoin (pathJoin cfg.output_dir (toString i))
    ("mesh." ++ cfg.model_save_format)
  [PipeEvent.printedLine
      ("Running image " ++ toString (i + 1) ++ "/" ++ toString total ++ " ..."),
   PipeEvent.startedTimer "Running model",
   PipeEvent.inferCall [image],
   PipeEvent.endedTimer "Running model"] ++
  (if cfg.render then
     let render_images := renderFn scene_codes 30 "pil"
     let frames0 := render_images.getD 0 []
     [PipeEvent.startedTimer "Rendering",
      PipeEvent.renderCall scene_codes 30 "pil"] ++
     frames0.enum.map (fun p =>
        PipeEvent.savedFrame
          (pathJoin (pathJoin cfg.output_dir (toString i))
            ("render_" ++ fmt3 p.1 ++ ".png")) p.2) ++
     [PipeEvent.savedVideo
        (pathJoin (pathJoin cfg.output_dir (toString i)) "render.mp4")
        30 frames0,
      PipeEvent.endedTimer "Rendering"]
   else []) ++
  [PipeEvent.startedTimer "Exporting mesh",
   PipeEvent.extractCall scene_codes false,
   PipeEvent.exportedMesh mesh_file (meshes.getD 0 ⟨0⟩),
   PipeEvent.endedTimer "Exporting mesh"]

/-- The whole pipeline loop: one iteration per element of `images`, in
order. -/
def pipelineLoop (cfg : InferenceConfig)
    (modelFn : List Image → List Scene)
    (renderFn : List Scene → Nat → String → List (List Frame))
    (extractFn : List Scene → Bool → List Mesh)
    (images : List Image) : List PipeEvent :=
  images.enum.flatMap (fun p =>
    pipelineIter cfg modelFn renderFn extractFn images.length p.1 p.2)

/-- A full notebook run on one uploaded bitmap: upload cell, preprocessing
cell, pipeline loop.  Returns the saved-file record of the upload cell, the
`images` batch, the preprocessing trace and the loop trace. -/
def notebookRun (removeBg : Image → Image) (resizeFg : Image → ℚ → Image)
    (modelFn : List Image → List Scene)
    (renderFn : List Scene → Nat → String → List (List Frame))
    (extractFn : List Scene → Bool → List Mesh)
    (uploaded : Image) :
    (String × Image) × List Image × List PreprocEvent × List PipeEvent :=
  let up := uploadCell uploaded
  let pre := preprocessCell notebookConfig removeBg resizeFg up.1
  (up.2, pre.1, pre.2,
   pipelineLoop notebookConfig modelFn renderFn extractFn pre.1)

/-- Paths written to disk by a list of pipeline events. -/
def PipeEvent.savedPath : PipeEvent → Option String
  | PipeEvent.savedFrame path _ => some path
  | PipeEvent.savedVideo path _ _ => some path
  | PipeEvent.exportedMesh path _ => some path
  | _ => none

/-- Paths written to disk by a preprocessing event. -/
def PreprocEvent.savedPath : PreprocEvent → Option String
  | PreprocEvent.savedFile path => some path
  | _ => none

/-- Recognize a `model.render` invocation event. -/
def PipeEvent.isRenderCall : PipeEvent → Bool
  | PipeEvent.renderCall _ _ _ => true
  | _ => false

/-- Recognize a `save_video` event. -/
def PipeEvent.isSavedVideo : PipeEvent → Bool
  | PipeEvent.savedVideo _ _ _ => true
  | _ => false

/-- Recognize a mesh-file export event. -/
def PipeEvent.isExportedMesh : PipeEvent → Bool
  | PipeEvent.exportedMesh _ _ => true
  | _ => false

/-- Recognize a `model.extract_mesh` invocation event. -/
def PipeEvent.isExtractCall : PipeEvent → Bool
  | PipeEvent.extractCall _ _ => true
  | _ => false

/-- Recognize any event that only the render branch can produce. -/
def PipeEvent.isRenderBranch : PipeEvent → Bool
  | PipeEvent.renderCall _ _ _ => true
  | PipeEvent.savedFrame _ _ => true
  | PipeEvent.savedVideo _ _ _ => true
  | _ => false

/-- The path of a saved render frame, if the event is one. -/
def PipeEvent.framePath : PipeEvent → Option String
  | PipeEvent.savedFrame path _ => some path
  | _ => none

/-- A concrete 1×1 RGBA bitmap used to exercise the concrete theorems. -/
def testImage : Image :=
  { mode := Mode.RGBA, height := 1, width := 1, pixels := [[[100, 150, 200, 51]]] }

/-- A concrete 3×2 RGB bitmap (width 3, height 2), deliberately not square
and not 512×512. -/
def smallUpload : Image :=
  { mode := Mode.RGB, height := 2, width := 3
    pixels := [[[10, 20, 30], [40, 50, 60], [70, 80, 90]],
               [[1, 2, 3], [4, 5, 6], [7, 8, 9]]] }

/-! ## Helper lemmas -/

theorem itemsLookup_erase_self (l : TimerItems) (name : String) :
    itemsLookup (itemsErase l name) name = none := by
  induction l with
  | nil => rfl
  | cons kv rest ih =>
      by_cases h : kv.1 = name
      · simpa [itemsErase, h] using ih
      · simp [itemsErase, itemsLookup, h, ih]

theorem itemsLookup_erase_ne (l : TimerItems) (name other : String)
    (h : other ≠ name) :
    itemsLookup (itemsErase l name) other = itemsLookup l other := by
  induction l with
  | nil => rfl
  | cons kv rest ih =>
      by_cases hk : kv.1 = name
      · simp [itemsErase, itemsLookup, hk, Ne.symm h, ih]
      · by_cases ho : kv.1 = other
        · simp [itemsErase, itemsLookup, hk, ho, h]
        · simp [itemsErase, itemsLookup, hk, ho, ih]

/-! ## Timer theorems -/

/-- C10: `Timer.end` never returns the measured duration: whatever the
state, CUDA availability, name and clock reading, the call returns `None`
(the duration is only printed). -/
theorem timerEnd_returns_none (tm : Timer) (cuda : Bool) (name : String)
    (now : ℚ) : (timerEnd tm cuda name now).ret = none := by
  unfold timerEnd
  cases itemsLookup tm.items name <;> rfl

/-- C4: ending a name with no active interval is a no-op: `Timer.end`
returns `None` immediately, records no effect (no print, no barrier), and
leaves the timer state unchanged. -/
theorem timerEnd_inactive_noop (tm : Timer) (cuda : Bool) (name : String)
    (now : ℚ) (h : itemsLookup tm.items name = none) :
    timerEnd tm cuda name now = { timer := tm, effects := [], ret := none } := by
  unfold timerEnd
  rw [h]

/-- Witness for `timerEnd_inactive_noop` on a concrete inactive name. -/
theorem timerEnd_inactive_noop_witness :
    timerEnd Timer.init false "X" 5 =
      { timer := Timer.init, effects := [], ret := none } :=
  timerEnd_inactive_noop Timer.init false "X" 5 rfl

/-- C8: ending an active interval removes exactly that name from the
active set (an immediately repeated `end` of the same name is a no-op),
leaves every other name's start time unchanged, and prints exactly
`name ++ " finished in " ++ t ++ "ms."` with `t` the elapsed time scaled
by 1000 and formatted to two decimals. -/
theorem timerEnd_active_removes_and_prints (items : TimerItems) (cuda : Bool)
    (name : String) (now t0 : ℚ)
    (h : itemsLookup items name = some t0) :
    (timerEnd ⟨items, 1000, "ms"⟩ cuda name now).timer.items
        = itemsErase items name ∧
    itemsLookup (timerEnd ⟨items, 1000, "ms"⟩ cuda name now).timer.items name
        = none ∧
    (∀ other, other ≠ name →
      itemsLookup (timerEnd ⟨items, 1000, "ms"⟩ cuda name now).timer.items other
        = itemsLookup items other) ∧
    timerEnd (timerEnd ⟨items, 1000, "ms"⟩ cuda name now).timer cuda name now
        = { timer := (timerEnd ⟨items, 1000, "ms"⟩ cuda name now).timer,
            effects := [], ret := none } ∧
    (timerEnd ⟨items, 1000, "ms"⟩ cuda name now).effects
        = [TimerEffect.printed
            (name ++ " finished in " ++ fmt2 ((now - t0) * 1000) ++ "ms" ++ ".")] := by
  have hrun : timerEnd ⟨items, 1000, "ms"⟩ cuda name now =
      { timer := ⟨itemsErase items name, 1000, "ms"⟩,
        effects := [TimerEffect.printed
          (name ++ " finished in " ++ fmt2 ((now - t0) * 1000) ++ "ms" ++ ".")],
        ret := none } := by
    unfold timerEnd
    rw [h]
  refine ⟨by rw [hrun], ?_, ?_, ?_, by rw [hrun]⟩
  · rw [hrun]
    exact itemsLookup_erase_self items name
  · intro other ho
    rw [hrun]
    exact itemsLookup_erase_ne items name other ho
  · rw [hrun]
    exact timerEnd_inactive_noop _ cuda name now (itemsLookup_erase_self items name)

/-- Witness for `timerEnd_active_removes_and_prints` on a concrete active
interval: name `"X"` started at time 1, ended at time 3 (so 2000.00 ms). -/
theorem timerEnd_active_removes_and_prints_witness :
    (timerEnd ⟨[("X", 1)], 1000, "ms"⟩ true "X" 3).timer.items
        = itemsErase [("X", 1)] "X" ∧
    itemsLookup (timerEnd ⟨[("X", 1)], 1000, "ms"⟩ true "X" 3).timer.items "X"
        = none ∧
    (∀ other, other ≠ "X" →
      itemsLookup (timerEnd ⟨[("X", 1)], 1000, "ms"⟩ true "X" 3).timer.items other
        = itemsLookup [("X", 1)] other) ∧
    timerEnd (timerEnd ⟨[("X", 1)], 1000, "ms"⟩ true "X" 3).timer true "X" 3
        = { timer := (timerEnd ⟨[("X", 1)], 1000, "ms"⟩ true "X" 3).timer,
            effects := [], ret := none } ∧
    (timerEnd ⟨[("X", 1)], 1000, "ms"⟩ true "X" 3).effects
        = [TimerEffect.printed
            ("X" ++ " finished in " ++ fmt2 ((3 - 1) * 1000) ++ "ms" ++ ".")] :=
  timerEnd_active_removes_and_prints [("X", 1)] true "X" 3 1 rfl

/-- C2 (refuting): `Timer.start` performs the CUDA synchronization barrier
when accelerated compute is available, but `Timer.end` on an active name
does not — the source's `torch.cuda.synchronize` statement lacks call
parentheses, so the only effect of ending the interval is the print.  Here
`"Running model"` is started at time 0 and ended at time 2 with CUDA
available: the start trace is exactly one barrier, the end trace is exactly
one print and no barrier. -/
theorem timerEnd_skips_cuda_sync :
    (Timer.start Timer.init true "Running model" 0).2 = [TimerEffect.cudaSync] ∧
    (timerEnd (Timer.start Timer.init true "Running model" 0).1
        true "Running model" 2).effects
      = [TimerEffect.printed
          ("Running model" ++ " finished in " ++ fmt2 ((2 - 0) * 1000) ++ "ms" ++ ".")] ∧
    TimerEffect.cudaSync ∉
      (timerEnd (Timer.start Timer.init true "Running model" 0).1
        true "Running model" 2).effects := by
  have hend : (timerEnd (Timer.start Timer.init true "Running model" 0).1
      true "Running model" 2).effects
      = [TimerEffect.printed
          ("Running model" ++ " finished in " ++ fmt2 ((2 - 0) * 1000) ++ "ms" ++ ".")] := by
    unfold timerEnd Timer.start Timer.init
    simp [itemsInsert, itemsLookup]
  refine ⟨rfl, hend, ?_⟩
  rw [hend]
  simp

/-! ## Preprocessing theorems -/

theorem compositePixel_length (px : List Nat) (h : px.length = 4) :
    (compositePixel px).length = 3 := by
  rcases px with _ | ⟨r, px⟩
  · simp at h
  rcases px with _ | ⟨g, px⟩
  · simp at h
  rcases px with _ | ⟨b, px⟩
  · simp at h
  rcases px with _ | ⟨a, px⟩
  · simp at h
  rcases px with _ | ⟨x, px⟩
  · rfl
  · simp at h

/-- C1 (refuting): the configuration cell sets `no_remove_bg = True`, yet
the preprocessing cell invokes the external background-removal capability
on every uploaded image — the flag is consulted nowhere, so background
removal is not bypassed. -/
theorem no_remove_bg_flag_ignored (removeBg : Image → Image)
    (resizeFg : Image → ℚ → Image) (orig : Image) :
    notebookConfig.no_remove_bg = true ∧
    PreprocEvent.calledRemoveBackground orig ∈
      (preprocessCell notebookConfig removeBg resizeFg orig).2 := by
  refine ⟨rfl, ?_⟩
  simp [preprocessCell]

/-- C3: when the image produced by foreground resizing carries an alpha
channel (PIL mode RGBA, 4-channel pixels), the preprocessing cell hands
inference exactly the composited image: mode RGB, every pixel 3 channels,
and every pixel's RGB channels blended by the spec's formula
`out = rgb*alpha + 0.5*(1-alpha)` on normalized values (then scaled back
and cast to uint8). -/
theorem preprocess_composites_rgba (cfg : InferenceConfig)
    (removeBg : Image → Image) (resizeFg : Image → ℚ → Image)
    (orig resized : Image)
    (hres : resized = resizeFg (removeBg orig) cfg.foreground_ratio)
    (halpha : resized.mode = Mode.RGBA)
    (hpx : ∀ row ∈ resized.pixels, ∀ px ∈ row, px.length = 4) :
    (preprocessCell cfg removeBg resizeFg orig).1 = [compositeRGBA resized] ∧
    (compositeRGBA resized).mode = Mode.RGB ∧
    (∀ row ∈ (compositeRGBA resized).pixels, ∀ px ∈ row,
        px.length = Mode.RGB.channels) ∧
    (∀ row ∈ resized.pixels, ∀ px ∈ row, ∀ r g b a : Nat, px = [r, g, b, a] →
        compositePixel px =
          [toUint8 (specBlend ((r : ℚ) / 255) ((a : ℚ) / 255) * 255),
           toUint8 (specBlend ((g : ℚ) / 255) ((a : ℚ) / 255) * 255),
           toUint8 (specBlend ((b : ℚ) / 255) ((a : ℚ) / 255) * 255)]) := by
  refine ⟨?_, rfl, ?_, ?_⟩
  · subst hres
    simp [preprocessCell, halpha]
  · intro row hrow px hpx'
    simp only [compositeRGBA, List.mem_map] at hrow
    obtain ⟨row0, hrow0, hrowe⟩ := hrow
    subst hrowe
    simp only [List.mem_map] at hpx'
    obtain ⟨px0, hpx0, hpxe⟩ := hpx'
    subst hpxe
    exact compositePixel_length px0 (hpx row0 hrow0 px0 hpx0)
  · intro row _ px _ r g b a hshape
    subst hshape
    simp [compositePixel]
    refine ⟨?_, ?_, ?_⟩ <;>
      · congr 1
        simp only [specBlend]
        ring

/-- Witness for `preprocess_composites_rgba` on the concrete 1×1 RGBA
bitmap `testImage` with identity stand-ins for the external removal and
resize capabilities. -/
theorem preprocess_composites_rgba_witness :
    (preprocessCell notebookConfig id (fun i _ => i) testImage).1
        = [compositeRGBA testImage] ∧
    (compositeRGBA testImage).mode = Mode.RGB ∧
    (∀ row ∈ (compositeRGBA testImage).pixels, ∀ px ∈ row,
        px.length = Mode.RGB.channels) ∧
    (∀ row ∈ testImage.pixels, ∀ px ∈ row, ∀ r g b a : Nat, px = [r, g, b, a] →
        compositePixel px =
          [toUint8 (specBlend ((r : ℚ) / 255) ((a : ℚ) / 255) * 255),
           toUint8 (specBlend ((g : ℚ) / 255) ((a : ℚ) / 255) * 255),
           toUint8 (specBlend ((b : ℚ) / 255) ((a : ℚ) / 255) * 255)]) :=
  preprocess_composites_rgba notebookConfig id (fun i _ => i) testImage testImage
    rfl rfl (by decide)

/-- C7 (refuting): the upload cell saves a 512×512 resized COPY of the
upload to `examples/product.png`, but the preprocessing cell hands the
original, un-resized `original_image` to background removal: on a 3×2
upload, background removal and foreground cropping operate on a 3×2 image,
not on the 512×512 square. -/
theorem preprocessor_receives_unresized_image :
    (uploadCell smallUpload).2.1 = "examples/product.png" ∧
    (uploadCell smallUpload).2.2.width = 512 ∧
    (uploadCell smallUpload).2.2.height = 512 ∧
    PreprocEvent.calledRemoveBackground smallUpload ∈
      (preprocessCell notebookConfig id (fun i _ => i)
        (uploadCell smallUpload).1).2 ∧
    (uploadCell smallUpload).1.width = 3 ∧
    (uploadCell smallUpload).1.height = 2 ∧
    ¬((uploadCell smallUpload).1.width = 512 ∧
      (uploadCell smallUpload).1.height = 512) := by
  refine ⟨rfl, rfl, rfl, ?_, rfl, rfl, by decide⟩
  simp [preprocessCell, uploadCell]

/-! ## Pipeline-loop theorems -/

theorem filterMap_map_some {α β : Type} (l : List α) (f : α → β) :
    l.filterMap (fun x => some (f x)) = l.map f := by
  induction l with
  | nil => rfl
  | cons x xs ih => simp [List.filterMap_cons, ih]

theorem enum_map_fst {α β : Type} (l : List α) (g : Nat → β) :
    l.enum.map (fun p => g p.1) = (List.range l.length).map g := by
  rw [show (fun p : Nat × α => g p.1) = g ∘ Prod.fst from rfl, ← List.map_map,
    List.enum_map_fst]

theorem map_enum_proj {α β : Type} (l : List α) (g : Nat → β) (n : Nat)
    (h : l.length = n) :
    List.map (fun x : Nat × α => g x.1) l.enum = List.map g (List.range n) := by
  subst h
  exact enum_map_fst l g

theorem pathJoin_out0 (x : String) :
    pathJoin (pathJoin "output/" "0") x = "output/0/" ++ x := rfl

theorem toString_zero : (toString (0 : Nat)) = "0" := rfl

/-- All paths the loop body writes, in write order: the render frames and
the video (when the render flag is on), then the mesh file. -/
theorem pipelineIter_savedPaths (cfg : InferenceConfig)
    (modelFn : List Image → List Scene)
    (renderFn : List Scene → Nat → String → List (List Frame))
    (extractFn : List Scene → Bool → List Mesh)
    (total i : Nat) (image : Image) :
    (pipelineIter cfg modelFn renderFn extractFn total i image).filterMap
        PipeEvent.savedPath
      = (if cfg.render then
          ((renderFn (modelFn [image]) 30 "pil").getD 0 []).enum.map
            (fun p => pathJoin (pathJoin cfg.output_dir (toString i))
              ("render_" ++ fmt3 p.1 ++ ".png"))
          ++ [pathJoin (pathJoin cfg.output_dir (toString i)) "render.mp4"]
         else [])
        ++ [pathJoin (pathJoin cfg.output_dir (toString i))
              ("mesh." ++ cfg.model_save_format)] := by
  cases hr : cfg.render <;>
    simp [pipelineIter, hr, List.filterMap_append, List.filterMap_map,
      PipeEvent.savedPath, Function.comp_def, filterMap_map_some]

/-- C5: with the render flag on and the model returning its contractual 30
frames for the scene encoding, the loop body requests exactly one render of
30 views, saves the frames as `render_000.png` … `render_029.png` in
increasing index order, and encodes one `render.mp4` at 30 fps holding the
full ordered 30-frame sequence. -/
theorem render_branch_thirty_frames (cfg : InferenceConfig)
    (modelFn : List Image → List Scene)
    (renderFn : List Scene → Nat → String → List (List Frame))
    (extractFn : List Scene → Bool → List Mesh)
    (total i : Nat) (image : Image)
    (hrender : cfg.render = true)
    (hn : ((renderFn (modelFn [image]) 30 "pil").getD 0 []).length = 30) :
    (pipelineIter cfg modelFn renderFn extractFn total i image).filter
        PipeEvent.isRenderCall
      = [PipeEvent.renderCall (modelFn [image]) 30 "pil"] ∧
    (pipelineIter cfg modelFn renderFn extractFn total i image).filterMap
        PipeEvent.framePath
      = (List.range 30).map (fun ri =>
          pathJoin (pathJoin cfg.output_dir (toString i))
            ("render_" ++ fmt3 ri ++ ".png")) ∧
    (pipelineIter cfg modelFn renderFn extractFn total i image).filter
        PipeEvent.isSavedVideo
      = [PipeEvent.savedVideo
          (pathJoin (pathJoin cfg.output_dir (toString i)) "render.mp4") 30
          ((renderFn (modelFn [image]) 30 "pil").getD 0 [])] := by
  have hn' : ((renderFn (modelFn [image]) 30 "pil")[0]?.getD []).length = 30 := by
    simpa using hn
  refine ⟨?_, ?_, ?_⟩
  · simp [pipelineIter, hrender, List.filter_append, List.filter_map,
      Function.comp_def, PipeEvent.isRenderCall]
  · simp [pipelineIter, hrender, List.filterMap_append, List.filterMap_map,
      Function.comp_def, PipeEvent.framePath, filterMap_map_some]
    exact map_enum_proj _ (fun ri => pathJoin (pathJoin cfg.output_dir
      (toString i)) ("render_" ++ fmt3 ri ++ ".png")) 30 hn'
  · simp [pipelineIter, hrender, List.filter_append, List.filter_map,
      Function.comp_def, PipeEvent.isSavedVideo]

/-- Witness for `render_branch_thirty_frames`: the notebook configuration
(whose render flag is `True`), stub model operations returning one scene
code, one 30-frame render list and one mesh, at batch index 0. -/
theorem render_branch_thirty_frames_witness :
    (pipelineIter notebookConfig (fun _ => [⟨0⟩])
        (fun _ _ _ => [(List.range 30).map Frame.mk]) (fun _ _ => [⟨0⟩])
        1 0 testImage).filter PipeEvent.isRenderCall
      = [PipeEvent.renderCall ((fun _ => [⟨0⟩]) [testImage]) 30 "pil"] ∧
    (pipelineIter notebookConfig (fun _ => [⟨0⟩])
        (fun _ _ _ => [(List.range 30).map Frame.mk]) (fun _ _ => [⟨0⟩])
        1 0 testImage).filterMap PipeEvent.framePath
      = (List.range 30).map (fun ri =>
          pathJoin (pathJoin notebookConfig.output_dir (toString 0))
            ("render_" ++ fmt3 ri ++ ".png")) ∧
    (pipelineIter notebookConfig (fun _ => [⟨0⟩])
        (fun _ _ _ => [(List.range 30).map Frame.mk]) (fun _ _ => [⟨0⟩])
        1 0 testImage).filter PipeEvent.isSavedVideo
      = [PipeEvent.savedVideo
          (pathJoin (pathJoin notebookConfig.output_dir (toString 0))
            "render.mp4") 30
          (((fun _ _ _ => [(List.range 30).map Frame.mk])
              ((fun _ => [(⟨0⟩ : Scene)]) [testImage]) 30 "pil").getD 0 [])] :=
  render_branch_thirty_frames notebookConfig (fun _ => [⟨0⟩])
    (fun _ _ _ => [(List.range 30).map Frame.mk]) (fun _ _ => [⟨0⟩])
    1 0 testImage rfl (by simp)

/-- C6: the loop body always extracts meshes from the scene codes and
writes exactly one mesh file to `<output_dir>/<i>/mesh.<format>`, for any
value of the render flag; the render-branch events (render call, frame
saves, video save) occur exactly when the render flag is on, and the render
call made is the single 30-view request. -/
theorem export_always_render_gated (cfg : InferenceConfig)
    (modelFn : List Image → List Scene)
    (renderFn : List Scene → Nat → String → List (List Frame))
    (extractFn : List Scene → Bool → List Mesh)
    (total i : Nat) (image : Image) :
    (pipelineIter cfg modelFn renderFn extractFn total i image).filter
        PipeEvent.isExportedMesh
      = [PipeEvent.exportedMesh
          (pathJoin (pathJoin cfg.output_dir (toString i))
            ("mesh." ++ cfg.model_save_format))
          ((extractFn (modelFn [image]) false).getD 0 ⟨0⟩)] ∧
    (pipelineIter cfg modelFn renderFn extractFn total i image).filter
        PipeEvent.isExtractCall
      = [PipeEvent.extractCall (modelFn [image]) false] ∧
    (pipelineIter cfg modelFn renderFn extractFn total i image).filter
        PipeEvent.isRenderCall
      = (if cfg.render then
          [PipeEvent.renderCall (modelFn [image]) 30 "pil"] else []) ∧
    ((pipelineIter cfg modelFn renderFn extractFn total i image).filter
        PipeEvent.isRenderBranch = [] ↔ cfg.render = false) := by
  refine ⟨?_, ?_, ?_, ?_⟩ <;>
    cases hr : cfg.render <;>
      simp [pipelineIter, hr, List.filter_append, List.filter_map,
        Function.comp, PipeEvent.isExportedMesh, PipeEvent.isExtractCall,
        PipeEvent.isRenderCall, PipeEvent.isRenderBranch]

/-- C9: a full notebook run has a batch of exactly one image; the
preprocessing cell writes `input.png` under the hard-coded directory
`output/0/` (the literal `str(0)`, for every input and stage behavior),
and every path the pipeline loop writes also lives under `output/0/`. -/
theorem single_image_batch_under_dir_zero (removeBg : Image → Image)
    (resizeFg : Image → ℚ → Image) (modelFn : List Image → List Scene)
    (renderFn : List Scene → Nat → String → List (List Frame))
    (extractFn : List Scene → Bool → List Mesh) (uploaded : Image) :
    (notebookRun removeBg resizeFg modelFn renderFn extractFn
        uploaded).2.1.length = 1 ∧
    (notebookRun removeBg resizeFg modelFn renderFn extractFn
        uploaded).2.2.1.filterMap PreprocEvent.savedPath
      = ["output/0/input.png"] ∧
    ∃ names : List String,
      (notebookRun removeBg resizeFg modelFn renderFn extractFn
          uploaded).2.2.2.filterMap PipeEvent.savedPath
        = names.map (fun s => "output/0/" ++ s) := by
  refine ⟨rfl, rfl, ?_⟩
  have hloop : (notebookRun removeBg resizeFg modelFn renderFn extractFn
      uploaded).2.2.2
      = pipelineIter notebookConfig modelFn renderFn extractFn 1 0
          ((preprocessCell notebookConfig removeBg resizeFg uploaded).1.getD 0
            testImage) := by
    simp [notebookRun, pipelineLoop, preprocessCell, uploadCell]
  rw [hloop, pipelineIter_savedPaths]
  refine ⟨((renderFn (modelFn
      [(preprocessCell notebookConfig removeBg resizeFg uploaded).1.getD 0
        testImage]) 30 "pil").getD 0 []).enum.map
      (fun p => "render_" ++ fmt3 p.1 ++ ".png")
    ++ ["render.mp4", "mesh.obj"], ?_⟩
  simp [notebookConfig, toString_zero, pathJoin_out0, List.map_map,
    Function.comp_def]

end TripoSR
